import Mathlib

/-!
# go-fwdlistener: a shallow embedding of `fwdlistener.go`

The package wraps a `net.Listener` / `net.PacketConn`, asks a UPnP gateway to
forward the listening port and reports the gateway's external address in
place of the local one.

Conventions of the embedding

* Go strings are Lean `String`s, scanned as `List Char`.  The only bytes the
  code below looks for (`:`, `[`, `]`, the sign and the digits) are ASCII, and
  an ASCII byte never occurs inside a multi-byte UTF-8 sequence, so cutting a
  string at a character offset gives the same pieces as cutting it at the
  corresponding byte offset.
* Everything outside the package (the gateway, the raw sockets, the calls
  `net.Listen`, `net.ListenPacket`, `upnp.Discover`) is an oracle: a function
  of the log of external calls made so far.  Every external call appends one
  `Event` to the log, so "is called", "is called once" and "is not called"
  are statements about the log.
* A Go result `(v, err)` of one of the package's entry points is an
  `Except Error _`; the three standard-library helpers keep Go's shape (all
  results are returned together with the error) because `setup` reads the
  results and drops the errors.
-/

namespace Fwdlistener

/-! ## Standard library helpers used by `setup` -/

/-- Index of the first occurrence of `c` (Go `bytealg.IndexByteString`), `none` for `-1`. -/
def indexByte : List Char → Char → Option Nat
  | [], _ => none
  | x :: xs, c => if x = c then some 0 else (indexByte xs c).map (· + 1)

/-- Index of the last occurrence of `c` (Go `bytealg.LastIndexByteString`), `none` for `-1`. -/
def lastIndexByte : List Char → Char → Option Nat
  | [], _ => none
  | x :: xs, c =>
    match lastIndexByte xs c with
    | some i => some (i + 1)
    | none => if x = c then some 0 else none

/-- The `Err` text of the `*net.AddrError` that `net.SplitHostPort` returns. -/
inductive AddrError where
  | missingPort
  | tooManyColons
  | missingCloseBracket
  | unexpectedOpenBracket
  | unexpectedCloseBracket
  deriving DecidableEq, Repr

/-- The helper `addrErr` of `net.SplitHostPort`: both strings empty, and the error. -/
def addrErr (why : AddrError) : String × String × Option AddrError :=
  ("", "", some why)

/-- The tail of `net.SplitHostPort`: no `[` from offset `j`, no `]` from offset `k`,
then the port is what follows the last colon, at offset `i`. -/
def splitTail (s : List Char) (host : List Char) (i j k : Nat) :
    String × String × Option AddrError :=
  if (indexByte (s.drop j) '[').isSome then addrErr .unexpectedOpenBracket
  else if (indexByte (s.drop k) ']').isSome then addrErr .unexpectedCloseBracket
  else (String.mk host, String.mk (s.drop (i + 1)), none)

/-- Go `net.SplitHostPort(hostport)`, returning `(host, port, err)`. -/
def SplitHostPort (hostport : String) : String × String × Option AddrError :=
  let s := hostport.toList
  match lastIndexByte s ':' with
  | none => addrErr .missingPort
  | some i =>
    if s.head? = some '[' then
      match indexByte s ']' with
      | none => addrErr .missingCloseBracket
      | some e =>
        if e + 1 = s.length then addrErr .missingPort
        else if e + 1 = i then splitTail s ((s.take e).drop 1) i 1 (e + 1)
        else if s.get? (e + 1) = some ':' then addrErr .tooManyColons
        else addrErr .missingPort
    else
      let host := s.take i
      if (indexByte host ':').isSome then addrErr .tooManyColons
      else splitTail s host i 0 0

/-- Go `net.JoinHostPort(host, port)`: the host is bracketed when it contains a colon. -/
def JoinHostPort (host port : String) : String :=
  if (indexByte host.toList ':').isSome then "[" ++ host ++ "]:" ++ port
  else host ++ ":" ++ port

/-- The `Err` of the `*strconv.NumError` returned by `ParseUint` / `ParseInt`. -/
inductive NumError where
  | errSyntax
  | errRange
  | errBase
  | errBitSize
  deriving DecidableEq, Repr

/-- The helper `lower` of `strconv`: `c | ('x' - 'X')` on a byte. -/
def lower (c : Nat) : Nat := c ||| 32

/-- The digit loop of `strconv.ParseUint`; `n` is the `uint64` accumulator.  A character
outside the byte range is a sequence of bytes above `0x7f` in Go, the first of which
falls in the `default` case exactly as the character does here. -/
def parseUintLoop (base cutoff maxVal : Nat) : List Char → Nat → Nat × Option NumError
  | [], n => (n, none)
  | ch :: rest, n =>
    let c := ch.toNat
    if 48 ≤ c ∧ c ≤ 57 then
      let d := c - 48
      if d ≥ base then (0, some .errSyntax)
      else if n ≥ cutoff then (maxVal, some .errRange)
      else
        let n0 := (n * base) % 2 ^ 64
        let n1 := (n0 + d) % 2 ^ 64
        if n1 < n0 ∨ n1 > maxVal then (maxVal, some .errRange)
        else parseUintLoop base cutoff maxVal rest n1
    else if 97 ≤ lower c ∧ lower c ≤ 122 then
      let d := (lower c - 97 + 10) % 256
      if d ≥ base then (0, some .errSyntax)
      else if n ≥ cutoff then (maxVal, some .errRange)
      else
        let n0 := (n * base) % 2 ^ 64
        let n1 := (n0 + d) % 2 ^ 64
        if n1 < n0 ∨ n1 > maxVal then (maxVal, some .errRange)
        else parseUintLoop base cutoff maxVal rest n1
    else (0, some .errSyntax)

/-- Go `strconv.ParseUint(s, base, bitSize)` for an explicit base `2..36` and an explicit
bit size `1..64` (the base-0 prefix and underscore handling and the bit size 0 are not
reached from this package, which passes base 10 and bit size 16). -/
def ParseUint (s : String) (base bitSize : Nat) : Nat × Option NumError :=
  if s = "" then (0, some .errSyntax)
  else if ¬ (2 ≤ base ∧ base ≤ 36) then (0, some .errBase)
  else if ¬ (1 ≤ bitSize ∧ bitSize ≤ 64) then (0, some .errBitSize)
  else
    let cutoff := (2 ^ 64 - 1) / base + 1
    let maxVal := 2 ^ bitSize - 1
    parseUintLoop base cutoff maxVal s.toList 0

/-- Go `strconv.ParseInt(s, base, bitSize)` under the same restriction as `ParseUint`:
the value is returned together with the error, and a range error carries the nearest
value of the signed `bitSize`-bit range. -/
def ParseInt (s : String) (base bitSize : Nat) : Int × Option NumError :=
  if s = "" then (0, some .errSyntax)
  else
    let cs := s.toList
    let neg := cs.head? = some '-'
    let body := if cs.head? = some '+' ∨ cs.head? = some '-' then cs.drop 1 else cs
    let r := ParseUint (String.mk body) base bitSize
    let un := r.1
    if r.2 ≠ none ∧ r.2 ≠ some .errRange then (0, r.2)
    else
      let cutoff := 2 ^ (bitSize - 1)
      if ¬ neg ∧ un ≥ cutoff then ((cutoff : Int) - 1, some .errRange)
      else if neg ∧ un > cutoff then (-(cutoff : Int), some .errRange)
      else (if neg then -(un : Int) else (un : Int), none)

/-- The Go conversion `uint16(x)` of an `int64`: the value modulo `2 ^ 16`. -/
def uint16 (x : Int) : Nat := (x % 65536).toNat

/-! ## The outside world -/

/-- A Go `error` value. -/
abbrev Error := String

/-- The value behind a `net.Addr` interface: what `Network()` and `String()` return. -/
structure NetAddr where
  network : String
  string : String
  deriving DecidableEq, Repr

/-- One call that leaves the package.  Gateways and raw sockets are named by a number. -/
inductive Event where
  | netListen (network address : String)
  | netListenPacket (network address : String)
  | discover
  | externalIP (igd : Nat)
  | forward (igd : Nat) (port : Nat) (desc : String)
  | clear (igd : Nat) (port : Nat)
  | rawAddr (l : Nat)
  | rawClose (l : Nat)
  deriving DecidableEq, Repr

/-- The log of external calls, oldest first. -/
abbrev Log := List Event

/-- A discovered gateway (`*upnp.IGD`): its identity and how it answers, given the calls
made before. -/
structure IGD where
  id : Nat
  externalIP : Log → Except Error String
  forward : Log → Nat → String → Option Error
  clear : Log → Nat → Option Error

/-- A raw `net.Listener`: its identity, the address it reports and how its `Close` answers. -/
structure NetListener where
  id : Nat
  addr : Log → NetAddr
  close : Log → Option Error

/-- A raw `net.PacketConn`: its identity, the address it reports and how its `Close` answers. -/
structure NetPacketConn where
  id : Nat
  localAddr : Log → NetAddr
  close : Log → Option Error

/-- The three package-level functions the entry points call. -/
structure Env where
  discover : Log → Except Error IGD
  listen : Log → String → String → Except Error NetListener
  listenPacket : Log → String → String → Except Error NetPacketConn

/-- The call `upnp.Discover()`. -/
def Env.Discover (env : Env) (w : Log) : Except Error IGD × Log :=
  (env.discover w, w ++ [.discover])

/-- The call `net.Listen(network, address)`. -/
def Env.Listen (env : Env) (network address : String) (w : Log) :
    Except Error NetListener × Log :=
  (env.listen w network address, w ++ [.netListen network address])

/-- The call `net.ListenPacket(network, address)`. -/
def Env.ListenPacket (env : Env) (network address : String) (w : Log) :
    Except Error NetPacketConn × Log :=
  (env.listenPacket w network address, w ++ [.netListenPacket network address])

/-- The call `igd.ExternalIP()`. -/
def IGD.ExternalIP (igd : IGD) (w : Log) : Except Error String × Log :=
  (igd.externalIP w, w ++ [.externalIP igd.id])

/-- The call `igd.Forward(port, desc)`. -/
def IGD.Forward (igd : IGD) (port : Nat) (desc : String) (w : Log) : Option Error × Log :=
  (igd.forward w port desc, w ++ [.forward igd.id port desc])

/-- The call `igd.Clear(port)`. -/
def IGD.Clear (igd : IGD) (port : Nat) (w : Log) : Option Error × Log :=
  (igd.clear w port, w ++ [.clear igd.id port])

/-- The call `l.Addr()` on a raw listener. -/
def NetListener.Addr (l : NetListener) (w : Log) : NetAddr × Log :=
  (l.addr w, w ++ [.rawAddr l.id])

/-- The call `l.Close()` on a raw listener. -/
def NetListener.Close (l : NetListener) (w : Log) : Option Error × Log :=
  (l.close w, w ++ [.rawClose l.id])

/-- The call `l.LocalAddr()` on a raw packet endpoint. -/
def NetPacketConn.LocalAddr (l : NetPacketConn) (w : Log) : NetAddr × Log :=
  (l.localAddr w, w ++ [.rawAddr l.id])

/-- The call `l.Close()` on a raw packet endpoint. -/
def NetPacketConn.Close (l : NetPacketConn) (w : Log) : Option Error × Log :=
  (l.close w, w ++ [.rawClose l.id])

/-! ## The package -/

/-- The struct `addr`. -/
structure addr where
  network : String
  address : String
  deriving DecidableEq, Repr

/-- The method `(*addr).Network`. -/
def addr.Network (a : addr) : String := a.network

/-- The method `(*addr).String`. -/
def addr.String (a : addr) : String := a.address

/-- An `*addr` used as a `net.Addr` (`var _ (net.Addr) = (*addr)(nil)`). -/
def addr.toNetAddr (a : addr) : NetAddr := ⟨a.Network, a.String⟩

/-- The function `genCloseFunc`: the closure calls `igd.Clear(port)` and drops its result. -/
def genCloseFunc (igd : IGD) (port : Nat) : Log → Log :=
  fun w => (igd.Clear port w).2

/-- The function `initalize` (spelled as in the source). -/
def initalize (env : Env) (w : Log) : Except Error (IGD × String) × Log :=
  match env.Discover w with
  | (.error err, w1) => (.error err, w1)
  | (.ok igd, w1) =>
    match igd.ExternalIP w1 with
    | (.error err, w2) => (.error err, w2)
    | (.ok externalIP, w2) => (.ok (igd, externalIP), w2)

/-- The function `setup`.  Both errors of the port parsing are dropped. -/
def setup (igd : IGD) (externalIP : String) (laddr : NetAddr) (w : Log) :
    Except Error ((Log → Log) × NetAddr) × Log :=
  let portString := (SplitHostPort laddr.string).2.1
  let port := (ParseInt portString 10 16).1
  match igd.Forward (uint16 port) ("go-fwdlistner: " ++ laddr.string) w with
  | (some err, w1) => (.error err, w1)
  | (none, w1) =>
    (.ok (genCloseFunc igd (uint16 port),
      (addr.mk laddr.network (JoinHostPort externalIP portString)).toNetAddr), w1)

/-- The struct `fwdListener`. -/
structure fwdListener where
  externalAddr : NetAddr
  closeFn : Log → Log
  Listener : NetListener

/-- The struct `fwdPacketListener`. -/
structure fwdPacketListener where
  externalAddr : NetAddr
  closeFn : Log → Log
  PacketConn : NetPacketConn

/-- The method `(*fwdListener).Addr`. -/
def fwdListener.Addr (f : fwdListener) (w : Log) : NetAddr × Log :=
  (f.externalAddr, w)

/-- The method `(*fwdPacketListener).LocalAddr`. -/
def fwdPacketListener.LocalAddr (f : fwdPacketListener) (w : Log) : NetAddr × Log :=
  (f.externalAddr, w)

/-- The method `(*fwdListener).Close`.  In the body, `f.Close()` is this method again (the
method of the outer struct hides the promoted `Listener.Close`), so the call is recursive;
`fuel` bounds the depth of the recursion and `none` is "has not returned".  The deferred
`f.closeFn()` runs when the inner call returns. -/
def fwdListener.Close : Nat → fwdListener → Log → Option (Option Error) × Log
  | 0, _, w => (none, w)
  | fuel + 1, f, w =>
    match fwdListener.Close fuel f w with
    | (none, w1) => (none, w1)
    | (some r, w1) => (some r, f.closeFn w1)

/-- The method `(*fwdPacketListener).Close`, recursive in the same way. -/
def fwdPacketListener.Close : Nat → fwdPacketListener → Log → Option (Option Error) × Log
  | 0, _, w => (none, w)
  | fuel + 1, f, w =>
    match fwdPacketListener.Close fuel f w with
    | (none, w1) => (none, w1)
    | (some r, w1) => (some r, f.closeFn w1)

/-- The function `FwdListener`. -/
def FwdListener (env : Env) (l : NetListener) (w : Log) : Except Error fwdListener × Log :=
  match initalize env w with
  | (.error err, w1) => (.error err, w1)
  | (.ok (igd, externalIP), w1) =>
    match l.Addr w1 with
    | (laddr, w2) =>
      match setup igd externalIP laddr w2 with
      | (.error err, w3) => (.error err, (l.Close w3).2)
      | (.ok (closeFn, externalAddr), w3) =>
        (.ok { externalAddr := externalAddr, Listener := l, closeFn := closeFn }, w3)

/-- The function `FwdPacketListener`. -/
def FwdPacketListener (env : Env) (l : NetPacketConn) (w : Log) :
    Except Error fwdPacketListener × Log :=
  match initalize env w with
  | (.error err, w1) => (.error err, w1)
  | (.ok (igd, externalIP), w1) =>
    match l.LocalAddr w1 with
    | (laddr, w2) =>
      match setup igd externalIP laddr w2 with
      | (.error err, w3) => (.error err, (l.Close w3).2)
      | (.ok (closeFn, externalAddr), w3) =>
        (.ok { externalAddr := externalAddr, PacketConn := l, closeFn := closeFn }, w3)

/-- The function `Listen`. -/
def Listen (env : Env) (network address : String) (w : Log) :
    Except Error fwdListener × Log :=
  match env.Listen network address w with
  | (.error err, w1) => (.error err, w1)
  | (.ok listener, w1) => FwdListener env listener w1

/-- The function `ListenPacket`. -/
def ListenPacket (env : Env) (network address : String) (w : Log) :
    Except Error fwdPacketListener × Log :=
  match env.ListenPacket network address w with
  | (.error err, w1) => (.error err, w1)
  | (.ok listener, w1) => FwdPacketListener env listener w1

/-! ## Concrete collaborators used in the examples -/

/-- A gateway that reports `203.0.113.5` and accepts every request. -/
def okGateway : IGD where
  id := 1
  externalIP := fun _ => .ok "203.0.113.5"
  forward := fun _ _ _ => none
  clear := fun _ _ => none

/-- A gateway that reports `203.0.113.5` and refuses every forward request. -/
def refusingGateway : IGD where
  id := 1
  externalIP := fun _ => .ok "203.0.113.5"
  forward := fun _ _ _ => some "forward refused"
  clear := fun _ _ => none

/-- A gateway that cannot report its external address. -/
def muteGateway : IGD where
  id := 1
  externalIP := fun _ => .error "no external address"
  forward := fun _ _ _ => none
  clear := fun _ _ => none

/-- A raw TCP listener whose address text is `text`. -/
def tcpListener (text : String) : NetListener where
  id := 7
  addr := fun _ => ⟨"tcp", text⟩
  close := fun _ => none

/-- A raw UDP endpoint whose address text is `text`. -/
def udpConn (text : String) : NetPacketConn where
  id := 8
  localAddr := fun _ => ⟨"udp", text⟩
  close := fun _ => none

/-- A host on which discovery finds `g`, and binding `:4000` gives the wildcard address. -/
def envWith (g : IGD) : Env where
  discover := fun _ => .ok g
  listen := fun _ _ _ => .ok (tcpListener "[::]:4000")
  listenPacket := fun _ _ _ => .ok (udpConn "[::]:4000")

/-- A host on which no gateway is found. -/
def envNoGateway : Env where
  discover := fun _ => .error "no UPnP gateway"
  listen := fun _ _ _ => .ok (tcpListener "[::]:4000")
  listenPacket := fun _ _ _ => .ok (udpConn "[::]:4000")

/-! ## What `setup` sends to the gateway -/

/-- The port text `setup` reads out of a local address (`portString`). -/
def portStringOf (laddr : NetAddr) : String := (SplitHostPort laddr.string).2.1

/-- The 16-bit port `setup` forwards for a local address (`uint16(port)`). -/
def forwardedPort (laddr : NetAddr) : Nat := uint16 (ParseInt (portStringOf laddr) 10 16).1

/-- The description `setup` sends along with the port. -/
def descriptionOf (laddr : NetAddr) : String := "go-fwdlistner: " ++ laddr.string

/-- The first-error contract of an entry point.  `w` is the log when discovery starts,
`laddrOf` and `raw` are the address report and the number of the raw listener, and `r` is
what the entry point returned together with the log it left. -/
def FirstErrorContract {α : Type} (env : Env) (laddrOf : Log → NetAddr) (raw : Nat) (w : Log)
    (r : Except Error α × Log) : Prop :=
  (∀ e : Error, env.discover w = .error e → r = (.error e, w ++ [.discover]))
  ∧ (∀ (igd : IGD) (e : Error), env.discover w = .ok igd →
      igd.externalIP (w ++ [.discover]) = .error e →
      r = (.error e, w ++ [.discover, .externalIP igd.id]))
  ∧ (∀ (igd : IGD) (E : String) (e : Error), env.discover w = .ok igd →
      igd.externalIP (w ++ [.discover]) = .ok E →
      igd.forward (w ++ [.discover, .externalIP igd.id, .rawAddr raw])
        (forwardedPort (laddrOf (w ++ [.discover, .externalIP igd.id])))
        (descriptionOf (laddrOf (w ++ [.discover, .externalIP igd.id]))) = some e →
      r.1 = .error e)
  ∧ (∀ x : α, r.1 = .ok x →
      ∃ (igd : IGD) (E : String), env.discover w = .ok igd
        ∧ igd.externalIP (w ++ [.discover]) = .ok E
        ∧ igd.forward (w ++ [.discover, .externalIP igd.id, .rawAddr raw])
            (forwardedPort (laddrOf (w ++ [.discover, .externalIP igd.id])))
            (descriptionOf (laddrOf (w ++ [.discover, .externalIP igd.id]))) = none)

theorem setup_log (igd : IGD) (E : String) (laddr : NetAddr) (w : Log) :
    (setup igd E laddr w).2 = w ++ [.forward igd.id (forwardedPort laddr) (descriptionOf laddr)] := by
  unfold setup IGD.Forward forwardedPort descriptionOf portStringOf
  dsimp only
  split <;> simp_all

theorem setup_ok_of_accept (igd : IGD) (E : String) (laddr : NetAddr) (w : Log)
    (h : igd.forward w (forwardedPort laddr) (descriptionOf laddr) = none) :
    (setup igd E laddr w).1 = .ok (genCloseFunc igd (forwardedPort laddr),
      ⟨laddr.network, JoinHostPort E (portStringOf laddr)⟩) := by
  unfold forwardedPort descriptionOf portStringOf at h
  unfold setup IGD.Forward forwardedPort portStringOf addr.toNetAddr addr.Network addr.String
  dsimp only
  rw [h]

theorem setup_error_of_refuse (igd : IGD) (E : String) (laddr : NetAddr) (w : Log) (e : Error)
    (h : igd.forward w (forwardedPort laddr) (descriptionOf laddr) = some e) :
    (setup igd E laddr w).1 = .error e := by
  unfold forwardedPort descriptionOf portStringOf at h
  unfold setup IGD.Forward
  dsimp only
  rw [h]

/-! ## The four outcomes of the wrapping entry points -/

theorem initalize_discover_error (env : Env) (w : Log) (e : Error)
    (hd : env.discover w = .error e) :
    initalize env w = (.error e, w ++ [.discover]) := by
  unfold initalize Env.Discover
  simp only [hd]

theorem initalize_externalIP_error (env : Env) (w : Log) (igd : IGD) (e : Error)
    (hd : env.discover w = .ok igd)
    (hx : igd.externalIP (w ++ [.discover]) = .error e) :
    initalize env w = (.error e, w ++ [.discover, .externalIP igd.id]) := by
  unfold initalize Env.Discover IGD.ExternalIP
  simp only [hd, hx, List.append_assoc, List.singleton_append]

theorem initalize_ok (env : Env) (w : Log) (igd : IGD) (E : String)
    (hd : env.discover w = .ok igd)
    (hx : igd.externalIP (w ++ [.discover]) = .ok E) :
    initalize env w = (.ok (igd, E), w ++ [.discover, .externalIP igd.id]) := by
  unfold initalize Env.Discover IGD.ExternalIP
  simp only [hd, hx, List.append_assoc, List.singleton_append]

theorem FwdListener_discover_error (env : Env) (l : NetListener) (w : Log) (e : Error)
    (hd : env.discover w = .error e) :
    FwdListener env l w = (.error e, w ++ [.discover]) := by
  unfold FwdListener
  rw [initalize_discover_error env w e hd]

theorem FwdListener_externalIP_error (env : Env) (l : NetListener) (w : Log) (igd : IGD)
    (e : Error) (hd : env.discover w = .ok igd)
    (hx : igd.externalIP (w ++ [.discover]) = .error e) :
    FwdListener env l w = (.error e, w ++ [.discover, .externalIP igd.id]) := by
  unfold FwdListener
  rw [initalize_externalIP_error env w igd e hd hx]

theorem FwdListener_forward_error (env : Env) (l : NetListener) (w : Log) (igd : IGD)
    (E : String) (e : Error) (hd : env.discover w = .ok igd)
    (hx : igd.externalIP (w ++ [.discover]) = .ok E)
    (hf : igd.forward (w ++ [.discover, .externalIP igd.id, .rawAddr l.id])
      (forwardedPort (l.addr (w ++ [.discover, .externalIP igd.id])))
      (descriptionOf (l.addr (w ++ [.discover, .externalIP igd.id]))) = some e) :
    FwdListener env l w = (.error e, w ++ [.discover, .externalIP igd.id, .rawAddr l.id,
      .forward igd.id (forwardedPort (l.addr (w ++ [.discover, .externalIP igd.id])))
        (descriptionOf (l.addr (w ++ [.discover, .externalIP igd.id]))),
      .rawClose l.id]) := by
  unfold FwdListener
  rw [initalize_ok env w igd E hd hx]
  have hlog : (w ++ [Event.discover, .externalIP igd.id]) ++ [.rawAddr l.id]
      = w ++ [.discover, .externalIP igd.id, .rawAddr l.id] := by simp
  simp only [NetListener.Addr, NetListener.Close, hlog]
  have h1 := setup_error_of_refuse igd E _ _ e hf
  have h2 := setup_log igd E (l.addr (w ++ [.discover, .externalIP igd.id]))
    (w ++ [.discover, .externalIP igd.id, .rawAddr l.id])
  generalize setup igd E (l.addr (w ++ [.discover, .externalIP igd.id]))
    (w ++ [.discover, .externalIP igd.id, .rawAddr l.id]) = r at h1 h2
  obtain ⟨r1, r2⟩ := r
  simp only at h1 h2
  subst h1 h2
  simp

theorem FwdListener_ok (env : Env) (l : NetListener) (w : Log) (igd : IGD)
    (E : String) (hd : env.discover w = .ok igd)
    (hx : igd.externalIP (w ++ [.discover]) = .ok E)
    (hf : igd.forward (w ++ [.discover, .externalIP igd.id, .rawAddr l.id])
      (forwardedPort (l.addr (w ++ [.discover, .externalIP igd.id])))
      (descriptionOf (l.addr (w ++ [.discover, .externalIP igd.id]))) = none) :
    FwdListener env l w =
      (.ok { externalAddr := ⟨(l.addr (w ++ [.discover, .externalIP igd.id])).network,
               JoinHostPort E (portStringOf (l.addr (w ++ [.discover, .externalIP igd.id])))⟩,
             closeFn := genCloseFunc igd
               (forwardedPort (l.addr (w ++ [.discover, .externalIP igd.id]))),
             Listener := l },
       w ++ [.discover, .externalIP igd.id, .rawAddr l.id,
         .forward igd.id (forwardedPort (l.addr (w ++ [.discover, .externalIP igd.id])))
           (descriptionOf (l.addr (w ++ [.discover, .externalIP igd.id])))]) := by
  unfold FwdListener
  rw [initalize_ok env w igd E hd hx]
  have hlog : (w ++ [Event.discover, .externalIP igd.id]) ++ [.rawAddr l.id]
      = w ++ [.discover, .externalIP igd.id, .rawAddr l.id] := by simp
  simp only [NetListener.Addr, hlog]
  have h1 := setup_ok_of_accept igd E _ _ hf
  have h2 := setup_log igd E (l.addr (w ++ [.discover, .externalIP igd.id]))
    (w ++ [.discover, .externalIP igd.id, .rawAddr l.id])
  generalize setup igd E (l.addr (w ++ [.discover, .externalIP igd.id]))
    (w ++ [.discover, .externalIP igd.id, .rawAddr l.id]) = r at h1 h2
  obtain ⟨r1, r2⟩ := r
  simp only at h1 h2
  subst h1 h2
  simp

theorem FwdPacketListener_discover_error (env : Env) (l : NetPacketConn) (w : Log) (e : Error)
    (hd : env.discover w = .error e) :
    FwdPacketListener env l w = (.error e, w ++ [.discover]) := by
  unfold FwdPacketListener
  rw [initalize_discover_error env w e hd]

theorem FwdPacketListener_externalIP_error (env : Env) (l : NetPacketConn) (w : Log) (igd : IGD)
    (e : Error) (hd : env.discover w = .ok igd)
    (hx : igd.externalIP (w ++ [.discover]) = .error e) :
    FwdPacketListener env l w = (.error e, w ++ [.discover, .externalIP igd.id]) := by
  unfold FwdPacketListener
  rw [initalize_externalIP_error env w igd e hd hx]

theorem FwdPacketListener_forward_error (env : Env) (l : NetPacketConn) (w : Log) (igd : IGD)
    (E : String) (e : Error) (hd : env.discover w = .ok igd)
    (hx : igd.externalIP (w ++ [.discover]) = .ok E)
    (hf : igd.forward (w ++ [.discover, .externalIP igd.id, .rawAddr l.id])
      (forwardedPort (l.localAddr (w ++ [.discover, .externalIP igd.id])))
      (descriptionOf (l.localAddr (w ++ [.discover, .externalIP igd.id]))) = some e) :
    FwdPacketListener env l w = (.error e, w ++ [.discover, .externalIP igd.id, .rawAddr l.id,
      .forward igd.id (forwardedPort (l.localAddr (w ++ [.discover, .externalIP igd.id])))
        (descriptionOf (l.localAddr (w ++ [.discover, .externalIP igd.id]))),
      .rawClose l.id]) := by
  unfold FwdPacketListener
  rw [initalize_ok env w igd E hd hx]
  have hlog : (w ++ [Event.discover, .externalIP igd.id]) ++ [.rawAddr l.id]
      = w ++ [.discover, .externalIP igd.id, .rawAddr l.id] := by simp
  simp only [NetPacketConn.LocalAddr, NetPacketConn.Close, hlog]
  have h1 := setup_error_of_refuse igd E _ _ e hf
  have h2 := setup_log igd E (l.localAddr (w ++ [.discover, .externalIP igd.id]))
    (w ++ [.discover, .externalIP igd.id, .rawAddr l.id])
  generalize setup igd E (l.localAddr (w ++ [.discover, .externalIP igd.id]))
    (w ++ [.discover, .externalIP igd.id, .rawAddr l.id]) = r at h1 h2
  obtain ⟨r1, r2⟩ := r
  simp only at h1 h2
  subst h1 h2
  simp

theorem FwdPacketListener_ok (env : Env) (l : NetPacketConn) (w : Log) (igd : IGD)
    (E : String) (hd : env.discover w = .ok igd)
    (hx : igd.externalIP (w ++ [.discover]) = .ok E)
    (hf : igd.forward (w ++ [.discover, .externalIP igd.id, .rawAddr l.id])
      (forwardedPort (l.localAddr (w ++ [.discover, .externalIP igd.id])))
      (descriptionOf (l.localAddr (w ++ [.discover, .externalIP igd.id]))) = none) :
    FwdPacketListener env l w =
      (.ok { externalAddr := ⟨(l.localAddr (w ++ [.discover, .externalIP igd.id])).network,
               JoinHostPort E (portStringOf (l.localAddr (w ++ [.discover, .externalIP igd.id])))⟩,
             closeFn := genCloseFunc igd
               (forwardedPort (l.localAddr (w ++ [.discover, .externalIP igd.id]))),
             PacketConn := l },
       w ++ [.discover, .externalIP igd.id, .rawAddr l.id,
         .forward igd.id (forwardedPort (l.localAddr (w ++ [.discover, .externalIP igd.id])))
           (descriptionOf (l.localAddr (w ++ [.discover, .externalIP igd.id])))]) := by
  unfold FwdPacketListener
  rw [initalize_ok env w igd E hd hx]
  have hlog : (w ++ [Event.discover, .externalIP igd.id]) ++ [.rawAddr l.id]
      = w ++ [.discover, .externalIP igd.id, .rawAddr l.id] := by simp
  simp only [NetPacketConn.LocalAddr, hlog]
  have h1 := setup_ok_of_accept igd E _ _ hf
  have h2 := setup_log igd E (l.localAddr (w ++ [.discover, .externalIP igd.id]))
    (w ++ [.discover, .externalIP igd.id, .rawAddr l.id])
  generalize setup igd E (l.localAddr (w ++ [.discover, .externalIP igd.id]))
    (w ++ [.discover, .externalIP igd.id, .rawAddr l.id]) = r at h1 h2
  obtain ⟨r1, r2⟩ := r
  simp only at h1 h2
  subst h1 h2
  simp

/-! ## The creating entry points -/

theorem Listen_listen_error (env : Env) (network address : String) (w : Log) (e : Error)
    (hl : env.listen w network address = .error e) :
    Listen env network address w = (.error e, w ++ [.netListen network address]) := by
  unfold Listen Env.Listen
  simp only [hl]

theorem Listen_listen_ok (env : Env) (network address : String) (w : Log) (l : NetListener)
    (hl : env.listen w network address = .ok l) :
    Listen env network address w = FwdListener env l (w ++ [.netListen network address]) := by
  unfold Listen Env.Listen
  simp only [hl]

theorem ListenPacket_listen_error (env : Env) (network address : String) (w : Log) (e : Error)
    (hl : env.listenPacket w network address = .error e) :
    ListenPacket env network address w
      = (.error e, w ++ [.netListenPacket network address]) := by
  unfold ListenPacket Env.ListenPacket
  simp only [hl]

theorem ListenPacket_listen_ok (env : Env) (network address : String) (w : Log)
    (l : NetPacketConn) (hl : env.listenPacket w network address = .ok l) :
    ListenPacket env network address w
      = FwdPacketListener env l (w ++ [.netListenPacket network address]) := by
  unfold ListenPacket Env.ListenPacket
  simp only [hl]

/-! ## Port parsing -/

theorem SplitHostPort_error_port (t : String) (h : (SplitHostPort t).2.2 ≠ none) :
    (SplitHostPort t).2.1 = "" := by
  unfold SplitHostPort splitTail addrErr at *
  dsimp only at *
  repeat' split
  all_goals first
    | rfl
    | (split at h <;> simp_all)

theorem ParseInt_syntax_value (s : String) (base bitSize : Nat)
    (h : (ParseInt s base bitSize).2 = some .errSyntax) : (ParseInt s base bitSize).1 = 0 := by
  unfold ParseInt at *
  dsimp only at *
  repeat' split
  all_goals first
    | rfl
    | (split at h <;> simp_all)

theorem forwardedPort_zero (laddr : NetAddr)
    (h : (SplitHostPort laddr.string).2.2 ≠ none
      ∨ (ParseInt (portStringOf laddr) 10 16).2 = some .errSyntax) :
    forwardedPort laddr = 0 := by
  have hs : (ParseInt (portStringOf laddr) 10 16).2 = some .errSyntax := by
    rcases h with h | h
    · have hp : portStringOf laddr = "" := SplitHostPort_error_port _ h
      rw [hp]
      decide
    · exact h
  unfold forwardedPort
  rw [ParseInt_syntax_value _ _ _ hs]
  decide

/-! ## Address texts -/

theorem indexByte_of_not_mem (s : List Char) (c : Char) (h : c ∉ s) : indexByte s c = none := by
  induction s with
  | nil => rfl
  | cons x xs ih =>
    simp only [List.mem_cons, not_or] at h
    simp [indexByte, ih h.2, Ne.symm h.1]

theorem indexByte_append_cons (a b : List Char) (c : Char) (h : c ∉ a) :
    indexByte (a ++ c :: b) c = some a.length := by
  induction a with
  | nil => simp [indexByte]
  | cons x xs ih =>
    simp only [List.mem_cons, not_or] at h
    simp [indexByte, ih h.2, Ne.symm h.1]

theorem lastIndexByte_of_not_mem (s : List Char) (c : Char) (h : c ∉ s) :
    lastIndexByte s c = none := by
  induction s with
  | nil => rfl
  | cons x xs ih =>
    simp only [List.mem_cons, not_or] at h
    simp [lastIndexByte, ih h.2, Ne.symm h.1]

theorem lastIndexByte_append_cons (a b : List Char) (c : Char) (h : c ∉ b) :
    lastIndexByte (a ++ c :: b) c = some a.length := by
  induction a with
  | nil => simp [lastIndexByte, lastIndexByte_of_not_mem b c h]
  | cons x xs ih => simp [lastIndexByte, ih]

theorem drop_length_succ (a b : List Char) (c : Char) :
    (a ++ c :: b).drop (a.length + 1) = b := by
  induction a with
  | nil => rfl
  | cons x xs ih => simp [ih]

theorem SplitHostPort_plain (host P : String)
    (hh : ':' ∉ host.data ∧ '[' ∉ host.data ∧ ']' ∉ host.data)
    (hP : ':' ∉ P.data ∧ '[' ∉ P.data ∧ ']' ∉ P.data) :
    SplitHostPort (host ++ ":" ++ P) = (host, P, none) := by
  obtain ⟨hc, ho, hcl⟩ := hh
  obtain ⟨pc, po, pcl⟩ := hP
  have hs : (host ++ ":" ++ P).toList = host.data ++ ':' :: P.data := by
    simp [String.toList]
  have hhead : (host.data ++ ':' :: P.data).head? ≠ some '[' := by
    cases hd : host.data with
    | nil => simp
    | cons x xs =>
      rw [hd] at ho
      simp only [List.mem_cons, not_or] at ho
      simp [Ne.symm ho.1]
  have hno : indexByte (host.data ++ ':' :: P.data) '[' = none :=
    indexByte_of_not_mem _ _ (by simp [ho, po])
  have hnc : indexByte (host.data ++ ':' :: P.data) ']' = none :=
    indexByte_of_not_mem _ _ (by simp [hcl, pcl])
  unfold SplitHostPort
  simp only [hs, lastIndexByte_append_cons _ _ _ pc, if_neg hhead, List.take_left',
    indexByte_of_not_mem _ _ hc, splitTail, List.drop_zero, hno, hnc, drop_length_succ]
  rfl

theorem SplitHostPort_bracketed (host P : String)
    (hh : '[' ∉ host.data ∧ ']' ∉ host.data)
    (hP : ':' ∉ P.data ∧ '[' ∉ P.data ∧ ']' ∉ P.data) :
    SplitHostPort ("[" ++ host ++ "]:" ++ P) = (host, P, none) := by
  obtain ⟨ho, hcl⟩ := hh
  obtain ⟨pc, po, pcl⟩ := hP
  have hs : ("[" ++ host ++ "]:" ++ P).toList = '[' :: (host.data ++ ']' :: ':' :: P.data) := by
    simp [String.toList]
  have hl : lastIndexByte ('[' :: (host.data ++ ']' :: ':' :: P.data)) ':'
      = some (host.data.length + 2) := by
    have := lastIndexByte_append_cons ('[' :: (host.data ++ [']'])) P.data ':' pc
    simpa using this
  have hi : indexByte ('[' :: (host.data ++ ']' :: ':' :: P.data)) ']'
      = some (host.data.length + 1) := by
    have := indexByte_append_cons ('[' :: host.data) (':' :: P.data) ']' (by simp [hcl])
    simpa using this
  have hno : indexByte (host.data ++ ']' :: ':' :: P.data) '[' = none :=
    indexByte_of_not_mem _ _ (by simp [ho, po])
  have hnc : indexByte (':' :: P.data) ']' = none :=
    indexByte_of_not_mem _ _ (by simp [pcl])
  unfold SplitHostPort
  have hd : List.drop (host.data.length + 2 + 1) ('[' :: (host.data ++ ']' :: ':' :: P.data))
      = P.data := by
    have := drop_length_succ ('[' :: (host.data ++ [']'])) P.data ':'
    simpa using this
  have ht : List.drop 1 (List.take (host.data.length + 1)
      ('[' :: (host.data ++ ']' :: ':' :: P.data))) = host.data := by
    simp
  have hd2 : List.drop (host.data.length + 1 + 1) ('[' :: (host.data ++ ']' :: ':' :: P.data))
      = ':' :: P.data := by
    have := drop_length_succ ('[' :: host.data) (':' :: P.data) ']'
    simpa using this
  simp only [hs, hl, hi, splitTail, hd, ht, hd2, hnc, List.drop_one, List.tail_cons, hno]
  simp
theorem indexByte_isSome_iff (s : List Char) (c : Char) :
    (indexByte s c).isSome = true ↔ c ∈ s := by
  induction s with
  | nil => simp [indexByte]
  | cons x xs ih =>
    by_cases hx : x = c
    · simp [indexByte, hx]
    · have hne : ¬ c = x := fun h => hx h.symm
      cases hi : indexByte xs c with
      | none => simp [indexByte, hx, hne, ← ih, hi]
      | some k => simp [indexByte, hx, hne, ← ih, hi]

theorem JoinHostPort_eq (E P : String) :
    JoinHostPort E P = if ':' ∈ E.data then "[" ++ E ++ "]:" ++ P else E ++ ":" ++ P := by
  unfold JoinHostPort
  by_cases h : ':' ∈ E.data
  · have hi : (indexByte E.toList ':').isSome = true := (indexByte_isSome_iff _ _).2 h
    rw [if_pos h, if_pos hi]
  · have hi : ¬ (indexByte E.toList ':').isSome = true :=
      fun hc => h ((indexByte_isSome_iff _ _).1 hc)
    rw [if_neg h, if_neg hi]

/-! ## The first-error contract -/

theorem FwdListener_contract (env : Env) (l : NetListener) (w : Log) :
    FirstErrorContract env l.addr l.id w (FwdListener env l w) := by
  refine ⟨?_, ?_, ?_, ?_⟩
  · intro e hd
    exact FwdListener_discover_error env l w e hd
  · intro igd e hd hx
    exact FwdListener_externalIP_error env l w igd e hd hx
  · intro igd E e hd hx hf
    rw [FwdListener_forward_error env l w igd E e hd hx hf]
  · intro x hok
    cases hd : env.discover w with
    | error e =>
      rw [FwdListener_discover_error env l w e hd] at hok
      simp at hok
    | ok igd =>
      cases hx : igd.externalIP (w ++ [.discover]) with
      | error e =>
        rw [FwdListener_externalIP_error env l w igd e hd hx] at hok
        simp at hok
      | ok E =>
        cases hf : igd.forward (w ++ [.discover, .externalIP igd.id, .rawAddr l.id])
            (forwardedPort (l.addr (w ++ [.discover, .externalIP igd.id])))
            (descriptionOf (l.addr (w ++ [.discover, .externalIP igd.id]))) with
        | some e =>
          rw [FwdListener_forward_error env l w igd E e hd hx hf] at hok
          simp at hok
        | none => exact ⟨igd, E, rfl, hx, hf⟩

theorem FwdPacketListener_contract (env : Env) (l : NetPacketConn) (w : Log) :
    FirstErrorContract env l.localAddr l.id w (FwdPacketListener env l w) := by
  refine ⟨?_, ?_, ?_, ?_⟩
  · intro e hd
    exact FwdPacketListener_discover_error env l w e hd
  · intro igd e hd hx
    exact FwdPacketListener_externalIP_error env l w igd e hd hx
  · intro igd E e hd hx hf
    rw [FwdPacketListener_forward_error env l w igd E e hd hx hf]
  · intro x hok
    cases hd : env.discover w with
    | error e =>
      rw [FwdPacketListener_discover_error env l w e hd] at hok
      simp at hok
    | ok igd =>
      cases hx : igd.externalIP (w ++ [.discover]) with
      | error e =>
        rw [FwdPacketListener_externalIP_error env l w igd e hd hx] at hok
        simp at hok
      | ok E =>
        cases hf : igd.forward (w ++ [.discover, .externalIP igd.id, .rawAddr l.id])
            (forwardedPort (l.localAddr (w ++ [.discover, .externalIP igd.id])))
            (descriptionOf (l.localAddr (w ++ [.discover, .externalIP igd.id]))) with
        | some e =>
          rw [FwdPacketListener_forward_error env l w igd E e hd hx hf] at hok
          simp at hok
        | none => exact ⟨igd, E, rfl, hx, hf⟩

/-! ## Claims -/

/-- C2 (the code departs from the claim): a local address `0.0.0.0:40000` carries a decimal
port in `0..65535`, yet for every gateway, external IP and earlier log `setup` calls
`forward` with port `32767`: `strconv.ParseInt(_, 10, 16)` parses into the signed 16-bit
range, reports a range error that `setup` drops, and hands back the clamped value.  The
ports `32768` and `65535` are forwarded as `32767` in the same way; `32767` is the last
port forwarded as itself. -/
theorem setup_forwards_32767_for_port_40000 :
    ∀ (igd : IGD) (E : String) (w : Log),
      (setup igd E ⟨"tcp", "0.0.0.0:40000"⟩ w).2
        = w ++ [.forward igd.id 32767 "go-fwdlistner: 0.0.0.0:40000"]
      ∧ SplitHostPort "0.0.0.0:40000" = ("0.0.0.0", "40000", none)
      ∧ ParseInt "40000" 10 16 = (32767, some .errRange)
      ∧ forwardedPort ⟨"tcp", "0.0.0.0:32767"⟩ = 32767
      ∧ forwardedPort ⟨"tcp", "0.0.0.0:32768"⟩ = 32767
      ∧ forwardedPort ⟨"tcp", "[::]:65535"⟩ = 32767 := by
  intro igd E w
  refine ⟨?_, by decide, by decide, by decide, by decide, by decide⟩
  rw [setup_log]
  have hp : forwardedPort ⟨"tcp", "0.0.0.0:40000"⟩ = 32767 := by decide
  have hd : descriptionOf ⟨"tcp", "0.0.0.0:40000"⟩ = "go-fwdlistner: 0.0.0.0:40000" := by
    decide
  rw [hp, hd]

/-- C3 (the code departs from the claim): `Close` of a wrapped listener and of a wrapped
packet endpoint never returns, whatever the depth allowed to its self-call, and the log is
left as it was: the raw listener is not closed and the teardown action is not run. -/
theorem Close_never_returns :
    (∀ (fuel : Nat) (f : fwdListener) (w : Log), f.Close fuel w = (none, w))
    ∧ (∀ (fuel : Nat) (f : fwdPacketListener) (w : Log), f.Close fuel w = (none, w)) := by
  constructor
  · intro fuel f w
    induction fuel with
    | zero => rfl
    | succ n ih => simp only [fwdListener.Close, ih]
  · intro fuel f w
    induction fuel with
    | zero => rfl
    | succ n ih => simp only [fwdPacketListener.Close, ih]

/-- C5 (the code departs from the claim): `Listen` and `ListenPacket` create the raw socket
and, when gateway discovery fails or the gateway cannot report its external IP, return the
error with no `Close` of the raw socket in the log. -/
theorem Listen_leaks_raw_listener_when_initalize_fails :
    Listen envNoGateway "tcp" ":4000" []
      = (.error "no UPnP gateway", [.netListen "tcp" ":4000", .discover])
    ∧ ListenPacket envNoGateway "udp" ":4000" []
      = (.error "no UPnP gateway", [.netListenPacket "udp" ":4000", .discover])
    ∧ Listen (envWith muteGateway) "tcp" ":4000" []
      = (.error "no external address",
          [.netListen "tcp" ":4000", .discover, .externalIP 1])
    ∧ ListenPacket (envWith muteGateway) "udp" ":4000" []
      = (.error "no external address",
          [.netListenPacket "udp" ":4000", .discover, .externalIP 1])
    ∧ Event.rawClose (tcpListener "[::]:4000").id ∉ (Listen envNoGateway "tcp" ":4000" []).2
    ∧ Event.rawClose (udpConn "[::]:4000").id
        ∉ (ListenPacket envNoGateway "udp" ":4000" []).2 := by
  refine ⟨rfl, rfl, rfl, rfl, by decide, by decide⟩

/-- C7: the address report of a wrapped listener (`Addr`) and of a wrapped packet endpoint
(`LocalAddr`) returns the stored external address at every call, makes no external call (the
log is unchanged, so the raw listener is not asked), and is the same whichever raw listener
the wrapper holds. -/
theorem address_report_is_stored_external_address :
    (∀ (f : fwdListener) (w : Log), f.Addr w = (f.externalAddr, w))
    ∧ (∀ (f : fwdListener) (w1 w2 : Log), (f.Addr w1).1 = (f.Addr (f.Addr w2).2).1)
    ∧ (∀ (a : NetAddr) (c : Log → Log) (l1 l2 : NetListener) (w : Log),
        (fwdListener.mk a c l1).Addr w = (fwdListener.mk a c l2).Addr w)
    ∧ (∀ (f : fwdPacketListener) (w : Log), f.LocalAddr w = (f.externalAddr, w))
    ∧ (∀ (f : fwdPacketListener) (w1 w2 : Log),
        (f.LocalAddr w1).1 = (f.LocalAddr (f.LocalAddr w2).2).1)
    ∧ (∀ (a : NetAddr) (c : Log → Log) (l1 l2 : NetPacketConn) (w : Log),
        (fwdPacketListener.mk a c l1).LocalAddr w = (fwdPacketListener.mk a c l2).LocalAddr w) := by
  refine ⟨fun _ _ => rfl, fun _ _ _ => rfl, fun _ _ _ _ _ => rfl,
    fun _ _ => rfl, fun _ _ _ => rfl, fun _ _ _ _ _ => rfl⟩

/-- C9: for every gateway, external IP, local address `L` and earlier log, the one call
`setup` makes is `forward` with the description `"go-fwdlistner: "` followed by the text
of `L`: the tag is a prefix of the description and the text of `L` a suffix. -/
theorem setup_description (igd : IGD) (E : String) (laddr : NetAddr) (w : Log) :
    ∃ (port : Nat) (desc : String),
      (setup igd E laddr w).2 = w ++ [.forward igd.id port desc]
      ∧ desc = "go-fwdlistner: " ++ laddr.string
      ∧ desc.data = "go-fwdlistner: ".data ++ laddr.string.data
      ∧ "go-fwdlistner: ".data <+: desc.data
      ∧ laddr.string.data <:+ desc.data := by
  have h : (descriptionOf laddr).data = "go-fwdlistner: ".data ++ laddr.string.data := rfl
  refine ⟨forwardedPort laddr, descriptionOf laddr, setup_log igd E laddr w, rfl, h, ?_, ?_⟩
  · rw [h]; exact List.prefix_append _ _
  · rw [h]; exact List.suffix_append _ _

/-- C10: whenever `setup` succeeds, for a local address of any shape, the port in its one
`forward` call is a 16-bit number and every run of the returned teardown action appends
exactly one `clear` of that same port on that same gateway, keeping no error: the action
is the log left by `igd.Clear(port)`, whatever that call answers. -/
theorem teardown_clears_forwarded_port (igd : IGD) (E : String) (laddr : NetAddr) (w : Log)
    (closeFn : Log → Log) (a : NetAddr) (h : (setup igd E laddr w).1 = .ok (closeFn, a)) :
    ∃ port : Nat, port < 65536
      ∧ (setup igd E laddr w).2 = w ++ [.forward igd.id port (descriptionOf laddr)]
      ∧ (∀ w1 : Log, closeFn w1 = w1 ++ [.clear igd.id port])
      ∧ (∀ w1 : Log, closeFn w1 = (igd.Clear port w1).2) := by
  refine ⟨forwardedPort laddr, ?_, setup_log igd E laddr w, ?_, ?_⟩
  · unfold forwardedPort uint16
    omega
  · intro w1
    unfold setup IGD.Forward at h
    dsimp only at h
    split at h
    · simp at h
    · simp only [Except.ok.injEq, Prod.mk.injEq] at h
      rw [← h.1]
      rfl
  · intro w1
    unfold setup IGD.Forward at h
    dsimp only at h
    split at h
    · simp at h
    · simp only [Except.ok.injEq, Prod.mk.injEq] at h
      rw [← h.1]
      rfl

theorem teardown_clears_forwarded_port_witness :
    (setup okGateway "203.0.113.5" ⟨"tcp", "[::]:4000"⟩ []).1
        = .ok (genCloseFunc okGateway 4000, ⟨"tcp", "203.0.113.5:4000"⟩)
    ∧ ∃ port : Nat, port < 65536
      ∧ (setup okGateway "203.0.113.5" ⟨"tcp", "[::]:4000"⟩ []).2
          = [] ++ [.forward okGateway.id port (descriptionOf ⟨"tcp", "[::]:4000"⟩)]
      ∧ (∀ w1 : Log, genCloseFunc okGateway 4000 w1 = w1 ++ [.clear okGateway.id port])
      ∧ (∀ w1 : Log, genCloseFunc okGateway 4000 w1 = (okGateway.Clear port w1).2) :=
  ⟨rfl, teardown_clears_forwarded_port okGateway "203.0.113.5" ⟨"tcp", "[::]:4000"⟩ []
    (genCloseFunc okGateway 4000) ⟨"tcp", "203.0.113.5:4000"⟩ rfl⟩

/-- C8 as stated fails: the port text of `0.0.0.0:70000` does not parse (`ParseInt`
reports a range error), yet `setup` forwards port `32767`, not port `0`. -/
theorem setup_range_error_is_not_port_zero :
    SplitHostPort "0.0.0.0:70000" = ("0.0.0.0", "70000", none)
    ∧ ParseInt "70000" 10 16 = (32767, some .errRange)
    ∧ (setup okGateway "203.0.113.5" ⟨"tcp", "0.0.0.0:70000"⟩ []).2
        = [.forward 1 32767 "go-fwdlistner: 0.0.0.0:70000"]
    ∧ (setup okGateway "203.0.113.5" ⟨"tcp", "0.0.0.0:70000"⟩ []).2
        ≠ [.forward 1 0 "go-fwdlistner: 0.0.0.0:70000"] := by
  refine ⟨by decide, by decide, by decide, by decide⟩

/-- C8, amended: when splitting the local address into host and port fails, or parsing
the port text reports a syntax error (`ParseInt` returns `ErrSyntax`), `setup` still makes
its one `forward` call, with port `0`; it succeeds when the gateway accepts that call and
fails only with the error of that call.  A port text on which `ParseInt` reports a range
error (`70000`, or `99999x`, where the range is left before the `x` is read) is not
covered: there the clamped value is forwarded. -/
theorem setup_unparsable_port_is_zero (igd : IGD) (E : String) (laddr : NetAddr) (w : Log)
    (h : (SplitHostPort laddr.string).2.2 ≠ none
      ∨ (ParseInt (SplitHostPort laddr.string).2.1 10 16).2 = some .errSyntax) :
    (setup igd E laddr w).2 = w ++ [.forward igd.id 0 ("go-fwdlistner: " ++ laddr.string)]
    ∧ (igd.forward w 0 ("go-fwdlistner: " ++ laddr.string) = none →
        ∃ (closeFn : Log → Log) (a : NetAddr), (setup igd E laddr w).1 = .ok (closeFn, a))
    ∧ (∀ e : Error, (setup igd E laddr w).1 = .error e →
        igd.forward w 0 ("go-fwdlistner: " ++ laddr.string) = some e) := by
  have hz : forwardedPort laddr = 0 := forwardedPort_zero laddr h
  refine ⟨?_, ?_, ?_⟩
  · rw [setup_log, hz]
    rfl
  · intro hacc
    have hacc2 : igd.forward w (forwardedPort laddr) (descriptionOf laddr) = none := by
      rw [hz]
      exact hacc
    exact ⟨_, _, setup_ok_of_accept igd E laddr w hacc2⟩
  · intro e he
    cases hf : igd.forward w (forwardedPort laddr) (descriptionOf laddr) with
    | none =>
      rw [setup_ok_of_accept igd E laddr w hf] at he
      simp at he
    | some e2 =>
      rw [setup_error_of_refuse igd E laddr w e2 hf] at he
      rw [hz] at hf
      simp only [Except.error.injEq] at he
      rw [← he]
      exact hf

theorem setup_unparsable_port_is_zero_witness :
    ((SplitHostPort "localhost").2.2 ≠ none
      ∨ (ParseInt (SplitHostPort "localhost").2.1 10 16).2 = some .errSyntax)
    ∧ ((SplitHostPort "0.0.0.0:http").2.2 ≠ none
      ∨ (ParseInt (SplitHostPort "0.0.0.0:http").2.1 10 16).2 = some .errSyntax)
    ∧ (setup okGateway "203.0.113.5" ⟨"tcp", "localhost"⟩ []).2
        = [] ++ [.forward okGateway.id 0 ("go-fwdlistner: " ++ "localhost")]
    ∧ (setup okGateway "203.0.113.5" ⟨"tcp", "0.0.0.0:http"⟩ []).2
        = [] ++ [.forward okGateway.id 0 ("go-fwdlistner: " ++ "0.0.0.0:http")] :=
  ⟨Or.inl (by decide), Or.inr (by decide),
    (setup_unparsable_port_is_zero okGateway "203.0.113.5" ⟨"tcp", "localhost"⟩ []
      (Or.inl (by decide))).1,
    (setup_unparsable_port_is_zero okGateway "203.0.113.5" ⟨"tcp", "0.0.0.0:http"⟩ []
      (Or.inr (by decide))).1⟩

/-- C4: when `Listen` (`ListenPacket`) has created the raw listener, discovery and the
external-IP lookup succeed and the gateway answers the `forward` call with the error `e`,
the result is the error `e` with no wrapper, and the calls made are exactly: creation,
discovery, lookup, the address query, the one refused `forward`, and last one `Close` of
the raw listener.  No `clear` is called and no other `forward` is attempted. -/
theorem Listen_forward_error_closes_raw :
    (∀ (env : Env) (network address : String) (w : Log) (l : NetListener) (igd : IGD)
        (E : String) (e : Error),
      env.listen w network address = .ok l →
      env.discover (w ++ [.netListen network address]) = .ok igd →
      igd.externalIP (w ++ [.netListen network address, .discover]) = .ok E →
      igd.forward
        (w ++ [.netListen network address, .discover, .externalIP igd.id, .rawAddr l.id])
        (forwardedPort
          (l.addr (w ++ [.netListen network address, .discover, .externalIP igd.id])))
        (descriptionOf
          (l.addr (w ++ [.netListen network address, .discover, .externalIP igd.id])))
        = some e →
      ∃ (port : Nat) (desc : String) (new : Log),
        Listen env network address w = (.error e, w ++ new)
        ∧ new = [.netListen network address, .discover, .externalIP igd.id, .rawAddr l.id,
            .forward igd.id port desc, .rawClose l.id]
        ∧ new.count (.rawClose l.id) = 1
        ∧ new.getLast? = some (.rawClose l.id)
        ∧ (∀ (g p : Nat), Event.clear g p ∉ new)
        ∧ (∀ (g p : Nat) (d : String), Event.forward g p d ∈ new →
            g = igd.id ∧ p = port ∧ d = desc))
    ∧ (∀ (env : Env) (network address : String) (w : Log) (l : NetPacketConn) (igd : IGD)
        (E : String) (e : Error),
      env.listenPacket w network address = .ok l →
      env.discover (w ++ [.netListenPacket network address]) = .ok igd →
      igd.externalIP (w ++ [.netListenPacket network address, .discover]) = .ok E →
      igd.forward
        (w ++ [.netListenPacket network address, .discover, .externalIP igd.id,
          .rawAddr l.id])
        (forwardedPort
          (l.localAddr
            (w ++ [.netListenPacket network address, .discover, .externalIP igd.id])))
        (descriptionOf
          (l.localAddr
            (w ++ [.netListenPacket network address, .discover, .externalIP igd.id])))
        = some e →
      ∃ (port : Nat) (desc : String) (new : Log),
        ListenPacket env network address w = (.error e, w ++ new)
        ∧ new = [.netListenPacket network address, .discover, .externalIP igd.id,
            .rawAddr l.id, .forward igd.id port desc, .rawClose l.id]
        ∧ new.count (.rawClose l.id) = 1
        ∧ new.getLast? = some (.rawClose l.id)
        ∧ (∀ (g p : Nat), Event.clear g p ∉ new)
        ∧ (∀ (g p : Nat) (d : String), Event.forward g p d ∈ new →
            g = igd.id ∧ p = port ∧ d = desc)) := by
  constructor
  · intro env network address w l igd E e hl hd hx hf
    have hd2 : env.discover (w ++ [.netListen network address]) = .ok igd := hd
    have hx2 : igd.externalIP ((w ++ [.netListen network address]) ++ [.discover])
        = .ok E := by simpa using hx
    have hf2 : igd.forward ((w ++ [.netListen network address])
          ++ [.discover, .externalIP igd.id, .rawAddr l.id])
        (forwardedPort
          (l.addr ((w ++ [.netListen network address]) ++ [.discover, .externalIP igd.id])))
        (descriptionOf
          (l.addr ((w ++ [.netListen network address]) ++ [.discover, .externalIP igd.id])))
        = some e := by simpa using hf
    refine ⟨forwardedPort
        (l.addr ((w ++ [.netListen network address]) ++ [.discover, .externalIP igd.id])),
      descriptionOf
        (l.addr ((w ++ [.netListen network address]) ++ [.discover, .externalIP igd.id])),
      _, ?_, rfl, ?_, ?_, ?_, ?_⟩
    · rw [Listen_listen_ok env network address w l hl,
        FwdListener_forward_error env l _ igd E e hd2 hx2 hf2]
      simp
    · simp [List.count_cons]
    · simp
    · intro g p
      simp
    · intro g p d
      simp
  · intro env network address w l igd E e hl hd hx hf
    have hd2 : env.discover (w ++ [.netListenPacket network address]) = .ok igd := hd
    have hx2 : igd.externalIP ((w ++ [.netListenPacket network address]) ++ [.discover])
        = .ok E := by simpa using hx
    have hf2 : igd.forward ((w ++ [.netListenPacket network address])
          ++ [.discover, .externalIP igd.id, .rawAddr l.id])
        (forwardedPort
          (l.localAddr
            ((w ++ [.netListenPacket network address]) ++ [.discover, .externalIP igd.id])))
        (descriptionOf
          (l.localAddr
            ((w ++ [.netListenPacket network address]) ++ [.discover, .externalIP igd.id])))
        = some e := by simpa using hf
    refine ⟨forwardedPort
        (l.localAddr
          ((w ++ [.netListenPacket network address]) ++ [.discover, .externalIP igd.id])),
      descriptionOf
        (l.localAddr
          ((w ++ [.netListenPacket network address]) ++ [.discover, .externalIP igd.id])),
      _, ?_, rfl, ?_, ?_, ?_, ?_⟩
    · rw [ListenPacket_listen_ok env network address w l hl,
        FwdPacketListener_forward_error env l _ igd E e hd2 hx2 hf2]
      simp
    · simp [List.count_cons]
    · simp
    · intro g p
      simp
    · intro g p d
      simp

theorem Listen_forward_error_closes_raw_witness :
    (∃ (port : Nat) (desc : String) (new : Log),
        Listen (envWith refusingGateway) "tcp" ":4000" []
          = (.error "forward refused", [] ++ new)
        ∧ new = [.netListen "tcp" ":4000", .discover, .externalIP refusingGateway.id,
            .rawAddr (tcpListener "[::]:4000").id,
            .forward refusingGateway.id port desc, .rawClose (tcpListener "[::]:4000").id]
        ∧ new.count (.rawClose (tcpListener "[::]:4000").id) = 1
        ∧ new.getLast? = some (.rawClose (tcpListener "[::]:4000").id)
        ∧ (∀ (g p : Nat), Event.clear g p ∉ new)
        ∧ (∀ (g p : Nat) (d : String), Event.forward g p d ∈ new →
            g = refusingGateway.id ∧ p = port ∧ d = desc))
    ∧ (∃ (port : Nat) (desc : String) (new : Log),
        ListenPacket (envWith refusingGateway) "udp" ":4000" []
          = (.error "forward refused", [] ++ new)
        ∧ new = [.netListenPacket "udp" ":4000", .discover, .externalIP refusingGateway.id,
            .rawAddr (udpConn "[::]:4000").id,
            .forward refusingGateway.id port desc, .rawClose (udpConn "[::]:4000").id]
        ∧ new.count (.rawClose (udpConn "[::]:4000").id) = 1
        ∧ new.getLast? = some (.rawClose (udpConn "[::]:4000").id)
        ∧ (∀ (g p : Nat), Event.clear g p ∉ new)
        ∧ (∀ (g p : Nat) (d : String), Event.forward g p d ∈ new →
            g = refusingGateway.id ∧ p = port ∧ d = desc)) :=
  ⟨Listen_forward_error_closes_raw.1 (envWith refusingGateway) "tcp" ":4000" []
      (tcpListener "[::]:4000") refusingGateway "203.0.113.5" "forward refused"
      rfl rfl rfl rfl,
    Listen_forward_error_closes_raw.2 (envWith refusingGateway) "udp" ":4000" []
      (udpConn "[::]:4000") refusingGateway "203.0.113.5" "forward refused"
      rfl rfl rfl rfl⟩

/-- C6: each of the four entry points meets the first-error contract.  With `w` the log
when discovery starts: if `discover` fails with `e` the result is `e` and the only call made
is `discover`; if `discover` succeeds and the external-IP lookup fails with `e` the result
is `e` and the only calls made are those two (no `forward`); if both succeed and `forward`
fails with `e` the result is `e`; and a wrapper is returned only when all three succeeded.
For `Listen` and `ListenPacket` discovery starts once the raw socket is created; when the
creation itself fails, its error is returned and discovery is not started. -/
theorem first_error_is_returned :
    (∀ (env : Env) (l : NetListener) (w : Log),
        FirstErrorContract env l.addr l.id w (FwdListener env l w))
    ∧ (∀ (env : Env) (l : NetPacketConn) (w : Log),
        FirstErrorContract env l.localAddr l.id w (FwdPacketListener env l w))
    ∧ (∀ (env : Env) (network address : String) (w : Log) (l : NetListener),
        env.listen w network address = .ok l →
        FirstErrorContract env l.addr l.id (w ++ [.netListen network address])
          (Listen env network address w))
    ∧ (∀ (env : Env) (network address : String) (w : Log) (l : NetPacketConn),
        env.listenPacket w network address = .ok l →
        FirstErrorContract env l.localAddr l.id (w ++ [.netListenPacket network address])
          (ListenPacket env network address w))
    ∧ (∀ (env : Env) (network address : String) (w : Log) (e : Error),
        env.listen w network address = .error e →
        Listen env network address w = (.error e, w ++ [.netListen network address]))
    ∧ (∀ (env : Env) (network address : String) (w : Log) (e : Error),
        env.listenPacket w network address = .error e →
        ListenPacket env network address w
          = (.error e, w ++ [.netListenPacket network address])) := by
  refine ⟨FwdListener_contract, FwdPacketListener_contract, ?_, ?_,
    Listen_listen_error, ListenPacket_listen_error⟩
  · intro env network address w l hl
    rw [Listen_listen_ok env network address w l hl]
    exact FwdListener_contract env l _
  · intro env network address w l hl
    rw [ListenPacket_listen_ok env network address w l hl]
    exact FwdPacketListener_contract env l _

theorem first_error_is_returned_witness :
    FwdListener envNoGateway (tcpListener "[::]:4000") []
      = (.error "no UPnP gateway", [] ++ [.discover])
    ∧ FwdPacketListener (envWith muteGateway) (udpConn "[::]:4000") []
      = (.error "no external address", [] ++ [.discover, .externalIP muteGateway.id])
    ∧ (Listen (envWith refusingGateway) "tcp" ":4000" []).1 = .error "forward refused"
    ∧ (ListenPacket (envWith refusingGateway) "udp" ":4000" []).1 = .error "forward refused"
    ∧ (∃ (igd : IGD) (E : String),
        (envWith okGateway).discover ([] ++ [.netListen "tcp" ":4000"]) = .ok igd
        ∧ igd.externalIP ([] ++ [.netListen "tcp" ":4000"] ++ [.discover]) = .ok E
        ∧ igd.forward ([] ++ [.netListen "tcp" ":4000"]
              ++ [.discover, .externalIP igd.id, .rawAddr (tcpListener "[::]:4000").id])
            (forwardedPort ((tcpListener "[::]:4000").addr
              ([] ++ [.netListen "tcp" ":4000"] ++ [.discover, .externalIP igd.id])))
            (descriptionOf ((tcpListener "[::]:4000").addr
              ([] ++ [.netListen "tcp" ":4000"] ++ [.discover, .externalIP igd.id])))
          = none)
    ∧ Listen (envWith okGateway) "tcp" ":4000" [.discover]
        = FwdListener (envWith okGateway) (tcpListener "[::]:4000")
            [.discover, .netListen "tcp" ":4000"] :=
  ⟨(first_error_is_returned.1 envNoGateway (tcpListener "[::]:4000") []).1
      "no UPnP gateway" rfl,
    (first_error_is_returned.2.1 (envWith muteGateway) (udpConn "[::]:4000") []).2.1
      muteGateway "no external address" rfl rfl,
    (first_error_is_returned.2.2.1 (envWith refusingGateway) "tcp" ":4000" []
      (tcpListener "[::]:4000") rfl).2.2.1 refusingGateway "203.0.113.5" "forward refused"
      rfl rfl rfl,
    (first_error_is_returned.2.2.2.1 (envWith refusingGateway) "udp" ":4000" []
      (udpConn "[::]:4000") rfl).2.2.1 refusingGateway "203.0.113.5" "forward refused"
      rfl rfl rfl,
    (first_error_is_returned.2.2.1 (envWith okGateway) "tcp" ":4000" []
      (tcpListener "[::]:4000") rfl).2.2.2
      { externalAddr := ⟨"tcp", "203.0.113.5:4000"⟩,
        closeFn := genCloseFunc okGateway 4000,
        Listener := tcpListener "[::]:4000" } rfl,
    rfl⟩

/-- C1: for every gateway, external IP `E`, earlier log and local address with network tag
`N` whose text splits into a host and the port text `P`, if the gateway accepts the
`forward` call then `setup` succeeds and returns the address with `Network() = N` and
`String() = JoinHostPort(E, P)`, which is `E:P`, or `[E]:P` when `E` contains a colon.  A
text `host:P` and a text `[host]:P` split in that way (no bracket inside `host` or `P`, no
colon inside `P`, and no colon inside an unbracketed `host`).  In particular, when the
gateway reports `203.0.113.5` and the tcp listener created by `Listen("tcp", ":4000")` is
bound to port `4000`, the wrapper `Listen` returns reports `tcp` / `203.0.113.5:4000` at
every call. -/
theorem setup_external_address :
    (∀ (igd : IGD) (E : String) (laddr : NetAddr) (w : Log) (host P : String),
        SplitHostPort laddr.string = (host, P, none) →
        igd.forward w (uint16 (ParseInt P 10 16).1) ("go-fwdlistner: " ++ laddr.string)
          = none →
        ∃ (closeFn : Log → Log) (a : addr),
          (setup igd E laddr w).1 = .ok (closeFn, a.toNetAddr)
          ∧ a.Network = laddr.network
          ∧ a.String = JoinHostPort E P
          ∧ a.String = if ':' ∈ E.data then "[" ++ E ++ "]:" ++ P else E ++ ":" ++ P)
    ∧ (∀ host P : String,
        (':' ∉ host.data ∧ '[' ∉ host.data ∧ ']' ∉ host.data) →
        (':' ∉ P.data ∧ '[' ∉ P.data ∧ ']' ∉ P.data) →
        SplitHostPort (host ++ ":" ++ P) = (host, P, none))
    ∧ (∀ host P : String,
        ('[' ∉ host.data ∧ ']' ∉ host.data) →
        (':' ∉ P.data ∧ '[' ∉ P.data ∧ ']' ∉ P.data) →
        SplitHostPort ("[" ++ host ++ "]:" ++ P) = (host, P, none))
    ∧ (∀ (env : Env) (w : Log) (l : NetListener) (igd : IGD) (text host : String),
        env.listen w "tcp" ":4000" = .ok l →
        env.discover (w ++ [.netListen "tcp" ":4000"]) = .ok igd →
        igd.externalIP (w ++ [.netListen "tcp" ":4000", .discover]) = .ok "203.0.113.5" →
        l.addr (w ++ [.netListen "tcp" ":4000", .discover, .externalIP igd.id])
          = ⟨"tcp", text⟩ →
        SplitHostPort text = (host, "4000", none) →
        igd.forward
          (w ++ [.netListen "tcp" ":4000", .discover, .externalIP igd.id, .rawAddr l.id])
          4000 ("go-fwdlistner: " ++ text) = none →
        ∃ f : fwdListener, (Listen env "tcp" ":4000" w).1 = .ok f
          ∧ ∀ w1 : Log, f.Addr w1 = (⟨"tcp", "203.0.113.5:4000"⟩, w1)) := by
  refine ⟨?_, SplitHostPort_plain, SplitHostPort_bracketed, ?_⟩
  · intro igd E laddr w host P hs hf
    have hp : portStringOf laddr = P := by
      unfold portStringOf
      rw [hs]
    have hf2 : igd.forward w (forwardedPort laddr) (descriptionOf laddr) = none := by
      unfold forwardedPort descriptionOf
      rw [hp]
      exact hf
    refine ⟨genCloseFunc igd (forwardedPort laddr),
      ⟨laddr.network, JoinHostPort E P⟩, ?_, rfl, rfl, JoinHostPort_eq E P⟩
    rw [setup_ok_of_accept igd E laddr w hf2, hp]
    rfl
  · intro env w l igd text host hl hd hx ha hs hf
    have hp : portStringOf ⟨"tcp", text⟩ = "4000" := by
      unfold portStringOf
      rw [hs]
    have hport : forwardedPort ⟨"tcp", text⟩ = 4000 := by
      unfold forwardedPort
      rw [hp]
      decide
    have ha2 : l.addr ((w ++ [.netListen "tcp" ":4000"]) ++ [.discover, .externalIP igd.id])
        = ⟨"tcp", text⟩ := by simpa using ha
    have hx2 : igd.externalIP ((w ++ [.netListen "tcp" ":4000"]) ++ [.discover])
        = .ok "203.0.113.5" := by simpa using hx
    have hf2 : igd.forward ((w ++ [.netListen "tcp" ":4000"])
          ++ [.discover, .externalIP igd.id, .rawAddr l.id])
        (forwardedPort
          (l.addr ((w ++ [.netListen "tcp" ":4000"]) ++ [.discover, .externalIP igd.id])))
        (descriptionOf
          (l.addr ((w ++ [.netListen "tcp" ":4000"]) ++ [.discover, .externalIP igd.id])))
        = none := by
      rw [ha2, hport]
      simpa [descriptionOf] using hf
    rw [Listen_listen_ok env "tcp" ":4000" w l hl,
      FwdListener_ok env l _ igd "203.0.113.5" hd hx2 hf2]
    refine ⟨_, rfl, ?_⟩
    intro w1
    simp only [fwdListener.Addr, ha2, hp]
    have hj : JoinHostPort "203.0.113.5" "4000" = "203.0.113.5:4000" := by decide
    rw [hj]

theorem setup_external_address_witness :
    (∃ (closeFn : Log → Log) (a : addr),
        (setup okGateway "2001:db8::1" ⟨"udp", "192.168.1.10:4000"⟩ []).1
          = .ok (closeFn, a.toNetAddr)
        ∧ a.Network = "udp"
        ∧ a.String = JoinHostPort "2001:db8::1" "4000"
        ∧ a.String = if ':' ∈ "2001:db8::1".data then "[" ++ "2001:db8::1" ++ "]:" ++ "4000"
            else "2001:db8::1" ++ ":" ++ "4000")
    ∧ SplitHostPort ("192.168.1.10" ++ ":" ++ "4000") = ("192.168.1.10", "4000", none)
    ∧ SplitHostPort ("[" ++ "::" ++ "]:" ++ "4000") = ("::", "4000", none)
    ∧ (∃ f : fwdListener, (Listen (envWith okGateway) "tcp" ":4000" []).1 = .ok f
        ∧ ∀ w1 : Log, f.Addr w1 = (⟨"tcp", "203.0.113.5:4000"⟩, w1)) :=
  ⟨setup_external_address.1 okGateway "2001:db8::1" ⟨"udp", "192.168.1.10:4000"⟩ []
      "192.168.1.10" "4000" (by decide) rfl,
    setup_external_address.2.1 "192.168.1.10" "4000" (by decide) (by decide),
    setup_external_address.2.2.1 "::" "4000" (by decide) (by decide),
    setup_external_address.2.2.2 (envWith okGateway) [] (tcpListener "[::]:4000") okGateway
      "[::]:4000" "::" rfl rfl rfl rfl (by decide) rfl⟩

end Fwdlistener
